import Mathlib

/-!
Blog post store and service (kpauljoseph/test).

A shallow embedding of `internal/storage/memory.go` and
`internal/server/blog_server.go`.

Modelling conventions.

* The Go map `posts map[string]*proto.BlogPost` is a finite map from strings to
  post records (`Finmap`).  Every pointer stored in the map is allocated by
  `CreatePost` and stored under exactly one key, so in-place mutation through
  the pointer in `UpdatePost` is the replacement of the record under that key.
* A Go result `(*proto.BlogPost, error)` is a pair of options: `none` is `nil`.
* `uuid.New().String()` and `time.Now()` are inputs of `CreatePost`.
* The `sync.RWMutex` and the `log.Printf` lines have no effect on the values
  returned or stored by a single call and are left out; each operation is one
  atomic step from a store to a store.
* A nil slice and an empty slice of tags are both the empty list.
-/

/-- Modelled from the spec: the well-known protobuf timestamp type
(`timestamppb.Timestamp`), whose declaration is outside the repository
sources: seconds and nanoseconds of a point in time. -/
structure Timestamp where
  Seconds : Int
  Nanos : Int
deriving DecidableEq, Repr

/-- Modelled from the spec: the generated message type `proto.BlogPost`, whose
declaration is not among the sources; the fields are the ones the spec lists
for the post on the wire and the ones `memory.go` assigns.  `PublicationDate`
is a pointer in Go and may be nil. -/
structure BlogPost where
  PostId : String
  Title : String
  Content : String
  Author : String
  PublicationDate : Option Timestamp
  Tags : List String
deriving DecidableEq, Repr

/-- Modelled from the spec: the generated request type
`proto.CreatePostRequest`, with the fields `blog_server.go` reads. -/
structure CreatePostRequest where
  Title : String
  Content : String
  Author : String
  PublicationDate : Option Timestamp
  Tags : List String
deriving DecidableEq, Repr

/-- Modelled from the spec: the generated response type
`proto.CreatePostResponse`; an unset `Post` is nil, an unset `Error` is the
empty string. -/
structure CreatePostResponse where
  Post : Option BlogPost
  Error : String
deriving DecidableEq, Repr

/-- Modelled from the spec: the generated request type
`proto.ReadPostRequest`. -/
structure ReadPostRequest where
  PostId : String
deriving DecidableEq, Repr

/-- Modelled from the spec: the generated response type
`proto.ReadPostResponse`. -/
structure ReadPostResponse where
  Post : Option BlogPost
  Error : String
deriving DecidableEq, Repr

/-- Modelled from the spec: the generated request type
`proto.UpdatePostRequest`. -/
structure UpdatePostRequest where
  PostId : String
  Title : String
  Content : String
  Author : String
  Tags : List String
deriving DecidableEq, Repr

/-- Modelled from the spec: the generated response type
`proto.UpdatePostResponse`. -/
structure UpdatePostResponse where
  Post : Option BlogPost
  Error : String
deriving DecidableEq, Repr

/-- Modelled from the spec: the generated request type
`proto.DeletePostRequest`. -/
structure DeletePostRequest where
  PostId : String
deriving DecidableEq, Repr

/-- Modelled from the spec: the generated response type
`proto.DeletePostResponse`; an unset `Success` is false. -/
structure DeletePostResponse where
  Success : Bool
  Error : String
deriving DecidableEq, Repr

/-! `internal/storage/memory.go` -/

/-- The store: `posts map[string]*proto.BlogPost` (the mutex is not modelled). -/
structure MemoryStorage where
  posts : Finmap (fun _ : String => BlogPost)
deriving DecidableEq

/-- The constructor `NewMemoryStorage`: an empty map. -/
def NewMemoryStorage : MemoryStorage :=
  { posts := ∅ }

/-- The message of `fmt.Errorf("post with ID %s not found", postID)`. -/
def notFoundMsg (postID : String) : String :=
  "post with ID " ++ postID ++ " not found"

namespace MemoryStorage

/-- The number of stored posts, `len(s.posts)`. -/
def size (s : MemoryStorage) : Nat :=
  s.posts.keys.card

/-- The method `CreatePost` of `memory.go`.  `uuid` stands for
`uuid.New().String()` and `now` for `timestamppb.New(time.Now())`. -/
def CreatePost (s : MemoryStorage) (uuid : String) (now : Timestamp)
    (title content author : String) (tags : List String) :
    (Option BlogPost × Option String) × MemoryStorage :=
  let post : BlogPost :=
    { PostId := uuid
      Title := title
      Content := content
      Author := author
      PublicationDate := some now
      Tags := tags }
  ((some post, none), { posts := s.posts.insert post.PostId post })

/-- The method `GetPost` of `memory.go`. -/
def GetPost (s : MemoryStorage) (postID : String) :
    (Option BlogPost × Option String) × MemoryStorage :=
  match s.posts.lookup postID with
  | none => ((none, some (notFoundMsg postID)), s)
  | some post => ((some post, none), s)

/-- The method `UpdatePost` of `memory.go`: the record found under `postID`
is mutated through its pointer, so the map holds the mutated record. -/
def UpdatePost (s : MemoryStorage) (postID title content author : String)
    (tags : List String) : (Option BlogPost × Option String) × MemoryStorage :=
  match s.posts.lookup postID with
  | none => ((none, some (notFoundMsg postID)), s)
  | some post =>
    let post1 : BlogPost :=
      { post with Title := title, Content := content, Author := author, Tags := tags }
    ((some post1, none), { posts := s.posts.insert postID post1 })

/-- The method `DeletePost` of `memory.go`; the result is the returned error. -/
def DeletePost (s : MemoryStorage) (postID : String) : Option String × MemoryStorage :=
  match s.posts.lookup postID with
  | none => (some (notFoundMsg postID), s)
  | some _ => (none, { posts := s.posts.erase postID })

end MemoryStorage

/-! `internal/server/blog_server.go` -/

/-- The service: it holds the store it was constructed with. -/
structure BlogServer where
  storage : MemoryStorage
deriving DecidableEq

/-- The constructor `NewBlogServer`. -/
def NewBlogServer (storage : MemoryStorage) : BlogServer :=
  { storage := storage }

namespace BlogServer

/-- The method `CreatePost` of `blog_server.go`.  The second component of the
result is the Go `error` (the transport-level fault).  The call site passes
`req.PublicationDate` between the author and the tags, but `CreatePost` of
`memory.go` has no parameter for it, so the call does not type-check as
written.  Here the call is bound to the method `memory.go` declares: the store
receives title, content, author and tags.  What a store method accepting the
date would do with it is not in the sources, and nothing below is stated about
the relation between the supplied date and the stored one. -/
def CreatePost (s : BlogServer) (uuid : String) (now : Timestamp)
    (req : CreatePostRequest) : (CreatePostResponse × Option String) × BlogServer :=
  if req.Title = "" then
    (({ Post := none, Error := "title is required" }, none), s)
  else if req.Content = "" then
    (({ Post := none, Error := "content is required" }, none), s)
  else if req.Author = "" then
    (({ Post := none, Error := "author is required" }, none), s)
  else if req.PublicationDate = none then
    (({ Post := none, Error := "publication_date is required" }, none), s)
  else
    match s.storage.CreatePost uuid now req.Title req.Content req.Author req.Tags with
    | ((_, some err), st) => (({ Post := none, Error := err }, none), { storage := st })
    | ((post, none), st) => (({ Post := post, Error := "" }, none), { storage := st })

/-- The method `ReadPost` of `blog_server.go`. -/
def ReadPost (s : BlogServer) (req : ReadPostRequest) :
    (ReadPostResponse × Option String) × BlogServer :=
  if req.PostId = "" then
    (({ Post := none, Error := "post_id is required" }, none), s)
  else
    match s.storage.GetPost req.PostId with
    | ((_, some err), st) => (({ Post := none, Error := err }, none), { storage := st })
    | ((post, none), st) => (({ Post := post, Error := "" }, none), { storage := st })

/-- The method `UpdatePost` of `blog_server.go`. -/
def UpdatePost (s : BlogServer) (req : UpdatePostRequest) :
    (UpdatePostResponse × Option String) × BlogServer :=
  if req.PostId = "" then
    (({ Post := none, Error := "post_id is required" }, none), s)
  else if req.Title = "" then
    (({ Post := none, Error := "title is required" }, none), s)
  else if req.Content = "" then
    (({ Post := none, Error := "content is required" }, none), s)
  else if req.Author = "" then
    (({ Post := none, Error := "author is required" }, none), s)
  else
    match s.storage.UpdatePost req.PostId req.Title req.Content req.Author req.Tags with
    | ((_, some err), st) => (({ Post := none, Error := err }, none), { storage := st })
    | ((post, none), st) => (({ Post := post, Error := "" }, none), { storage := st })

/-- The method `DeletePost` of `blog_server.go`. -/
def DeletePost (s : BlogServer) (req : DeletePostRequest) :
    (DeletePostResponse × Option String) × BlogServer :=
  if req.PostId = "" then
    (({ Success := false, Error := "post_id is required" }, none), s)
  else
    match s.storage.DeletePost req.PostId with
    | (some err, st) => (({ Success := false, Error := err }, none), { storage := st })
    | (none, st) => (({ Success := true, Error := "" }, none), { storage := st })

end BlogServer

namespace MemoryStorage

/-- The stores the program can hold: the one `NewMemoryStorage` builds, and
every store one of the four methods leaves behind when called on such a store
with any arguments. -/
inductive Reachable : MemoryStorage → Prop
  | new : Reachable NewMemoryStorage
  | create (s : MemoryStorage) (uuid : String) (now : Timestamp)
      (title content author : String) (tags : List String) :
      Reachable s → Reachable (s.CreatePost uuid now title content author tags).2
  | get (s : MemoryStorage) (postID : String) :
      Reachable s → Reachable (s.GetPost postID).2
  | update (s : MemoryStorage) (postID title content author : String)
      (tags : List String) :
      Reachable s → Reachable (s.UpdatePost postID title content author tags).2
  | delete (s : MemoryStorage) (postID : String) :
      Reachable s → Reachable (s.DeletePost postID).2

end MemoryStorage

namespace BlogServer

/-- The services the program can hold when the id generator yields non-empty
ids: the one built by `NewBlogServer` on the store of `NewMemoryStorage`, and
every service one of the four service methods leaves behind when called on
such a service with any request. -/
inductive ServiceReachable : BlogServer → Prop
  | new : ServiceReachable (NewBlogServer NewMemoryStorage)
  | create (s : BlogServer) (uuid : String) (now : Timestamp) (req : CreatePostRequest) :
      uuid ≠ "" → ServiceReachable s → ServiceReachable (s.CreatePost uuid now req).2
  | read (s : BlogServer) (req : ReadPostRequest) :
      ServiceReachable s → ServiceReachable (s.ReadPost req).2
  | update (s : BlogServer) (req : UpdatePostRequest) :
      ServiceReachable s → ServiceReachable (s.UpdatePost req).2
  | delete (s : BlogServer) (req : DeletePostRequest) :
      ServiceReachable s → ServiceReachable (s.DeletePost req).2

end BlogServer

/-! Auxiliary facts -/

theorem notFoundMsg_ne_empty (postID : String) : notFoundMsg postID ≠ "" := by
  intro h
  have hlen := congrArg String.length h
  simp only [notFoundMsg, String.length_append] at hlen
  have h13 : "post with ID ".length = 13 := by decide
  have h0 : "".length = 0 := by decide
  omega

theorem MemoryStorage.getPost_store (s : MemoryStorage) (postID : String) :
    (s.GetPost postID).2 = s := by
  unfold MemoryStorage.GetPost
  cases s.posts.lookup postID <;> rfl

theorem MemoryStorage.getPost_of_lookup_none {s : MemoryStorage} {postID : String}
    (h : s.posts.lookup postID = none) :
    s.GetPost postID = ((none, some (notFoundMsg postID)), s) := by
  simp [MemoryStorage.GetPost, h]

theorem MemoryStorage.getPost_of_lookup_some {s : MemoryStorage} {postID : String}
    {post : BlogPost} (h : s.posts.lookup postID = some post) :
    s.GetPost postID = ((some post, none), s) := by
  simp [MemoryStorage.GetPost, h]

theorem MemoryStorage.updatePost_of_lookup_none {s : MemoryStorage}
    {postID : String} (title content author : String) (tags : List String)
    (h : s.posts.lookup postID = none) :
    s.UpdatePost postID title content author tags
      = ((none, some (notFoundMsg postID)), s) := by
  simp [MemoryStorage.UpdatePost, h]

theorem MemoryStorage.updatePost_of_lookup_some {s : MemoryStorage}
    {postID : String} {post : BlogPost} (title content author : String)
    (tags : List String) (h : s.posts.lookup postID = some post) :
    s.UpdatePost postID title content author tags
      = ((some { post with Title := title, Content := content, Author := author,
                           Tags := tags }, none),
         { posts := s.posts.insert postID
             { post with Title := title, Content := content, Author := author,
                         Tags := tags } }) := by
  simp [MemoryStorage.UpdatePost, h]

theorem MemoryStorage.deletePost_of_lookup_none {s : MemoryStorage}
    {postID : String} (h : s.posts.lookup postID = none) :
    s.DeletePost postID = (some (notFoundMsg postID), s) := by
  simp [MemoryStorage.DeletePost, h]

theorem MemoryStorage.deletePost_of_lookup_some {s : MemoryStorage}
    {postID : String} {post : BlogPost} (h : s.posts.lookup postID = some post) :
    s.DeletePost postID = (none, { posts := s.posts.erase postID }) := by
  simp [MemoryStorage.DeletePost, h]

/-- In every reachable store the record under key `k` carries `k` as its
`PostId`. -/
theorem MemoryStorage.Reachable.postId_eq_key {s : MemoryStorage}
    (hs : s.Reachable) :
    ∀ (k : String) (p : BlogPost), s.posts.lookup k = some p → p.PostId = k := by
  induction hs with
  | new =>
    intro k p h
    simp [NewMemoryStorage, Finmap.lookup_empty] at h
  | create s uuid now title content author tags _ ih =>
    intro k p h
    by_cases hk : k = uuid
    · subst hk
      simp [MemoryStorage.CreatePost, Finmap.lookup_insert] at h
      rw [← h]
    · simp only [MemoryStorage.CreatePost] at h
      rw [Finmap.lookup_insert_of_ne _ hk] at h
      exact ih k p h
  | get s postID _ ih =>
    rw [MemoryStorage.getPost_store]
    exact ih
  | update s postID title content author tags _ ih =>
    intro k p h
    cases hl : s.posts.lookup postID with
    | none =>
      rw [MemoryStorage.updatePost_of_lookup_none _ _ _ _ hl] at h
      exact ih k p h
    | some post =>
      rw [MemoryStorage.updatePost_of_lookup_some _ _ _ _ hl] at h
      by_cases hk : k = postID
      · subst hk
        simp [Finmap.lookup_insert] at h
        rw [← h]
        exact ih k post hl
      · simp only at h
        rw [Finmap.lookup_insert_of_ne _ hk] at h
        exact ih k p h
  | delete s postID _ ih =>
    intro k p h
    cases hl : s.posts.lookup postID with
    | none =>
      rw [MemoryStorage.deletePost_of_lookup_none hl] at h
      exact ih k p h
    | some post =>
      rw [MemoryStorage.deletePost_of_lookup_some hl] at h
      by_cases hk : k = postID
      · subst hk
        simp [Finmap.lookup_erase] at h
      · simp only at h
        rw [Finmap.lookup_erase_ne hk] at h
        exact ih k p h

/-! The store -/

/-- C1: Create followed by Get round-trips.  For every store and all
arguments, with the generated id `uuid` (non-empty) and the current time `now`
as inputs, Create returns a post `P` and no error, `P` has a non-empty id, and
Get of `P.PostId` on the resulting store succeeds and returns exactly `P`. -/
theorem MemoryStorage.create_get_roundtrip (s : MemoryStorage) (uuid : String)
    (now : Timestamp) (title content author : String) (tags : List String)
    (huuid : uuid ≠ "") :
    ∃ P : BlogPost,
      (s.CreatePost uuid now title content author tags).1 = (some P, none) ∧
      P.PostId ≠ "" ∧
      ((s.CreatePost uuid now title content author tags).2.GetPost P.PostId).1
        = (some P, none) := by
  refine ⟨{ PostId := uuid, Title := title, Content := content, Author := author,
            PublicationDate := some now, Tags := tags }, rfl, huuid, ?_⟩
  have hl : (s.CreatePost uuid now title content author tags).2.posts.lookup uuid
      = some { PostId := uuid, Title := title, Content := content, Author := author,
               PublicationDate := some now, Tags := tags } := by
    simp [MemoryStorage.CreatePost, Finmap.lookup_insert]
  rw [MemoryStorage.getPost_of_lookup_some hl]

theorem MemoryStorage.create_get_roundtrip_witness :
    "u1" ≠ "" ∧
    ∃ P : BlogPost,
      (NewMemoryStorage.CreatePost "u1" ⟨1, 2⟩ "T" "C" "A" ["x"]).1 = (some P, none) ∧
      P.PostId ≠ "" ∧
      ((NewMemoryStorage.CreatePost "u1" ⟨1, 2⟩ "T" "C" "A" ["x"]).2.GetPost P.PostId).1
        = (some P, none) :=
  ⟨by decide,
   MemoryStorage.create_get_roundtrip NewMemoryStorage "u1" ⟨1, 2⟩ "T" "C" "A" ["x"]
     (by decide)⟩

/-- C2: for every store and id, each of Get, Update and Delete returns an
error if and only if the id is not a key of the store; in that case Get and
Update return no post, and the error message of all three is exactly
"post with ID <id> not found" with the requested id in place of <id>. -/
theorem MemoryStorage.error_iff_absent (s : MemoryStorage)
    (postID title content author : String) (tags : List String) :
    ((s.GetPost postID).1.2 ≠ none ↔ postID ∉ s.posts) ∧
    ((s.UpdatePost postID title content author tags).1.2 ≠ none ↔ postID ∉ s.posts) ∧
    ((s.DeletePost postID).1 ≠ none ↔ postID ∉ s.posts) ∧
    (postID ∉ s.posts →
      (s.GetPost postID).1
        = (none, some ("post with ID " ++ postID ++ " not found")) ∧
      (s.UpdatePost postID title content author tags).1
        = (none, some ("post with ID " ++ postID ++ " not found")) ∧
      (s.DeletePost postID).1
        = some ("post with ID " ++ postID ++ " not found")) := by
  cases hl : s.posts.lookup postID with
  | none =>
    have hmem : postID ∉ s.posts := Finmap.lookup_eq_none.mp hl
    rw [MemoryStorage.getPost_of_lookup_none hl,
      MemoryStorage.updatePost_of_lookup_none _ _ _ _ hl,
      MemoryStorage.deletePost_of_lookup_none hl]
    simp [hmem, notFoundMsg]
  | some post =>
    have hmem : postID ∈ s.posts := Finmap.mem_of_lookup_eq_some hl
    rw [MemoryStorage.getPost_of_lookup_some hl,
      MemoryStorage.updatePost_of_lookup_some _ _ _ _ hl,
      MemoryStorage.deletePost_of_lookup_some hl]
    simp [hmem]

theorem MemoryStorage.error_iff_absent_witness :
    "u2" ∉ (NewMemoryStorage.CreatePost "u1" ⟨1, 2⟩ "T" "C" "A" ["x"]).2.posts ∧
    ((NewMemoryStorage.CreatePost "u1" ⟨1, 2⟩ "T" "C" "A" ["x"]).2.GetPost "u2").1
      = (none, some ("post with ID " ++ "u2" ++ " not found")) ∧
    ((NewMemoryStorage.CreatePost "u1" ⟨1, 2⟩ "T" "C" "A" ["x"]).2.UpdatePost
        "u2" "T2" "C2" "A2" []).1
      = (none, some ("post with ID " ++ "u2" ++ " not found")) ∧
    ((NewMemoryStorage.CreatePost "u1" ⟨1, 2⟩ "T" "C" "A" ["x"]).2.DeletePost "u2").1
      = some ("post with ID " ++ "u2" ++ " not found") :=
  ⟨by decide,
   (MemoryStorage.error_iff_absent
      (NewMemoryStorage.CreatePost "u1" ⟨1, 2⟩ "T" "C" "A" ["x"]).2
      "u2" "T2" "C2" "A2" []).2.2.2 (by decide)⟩

/-- C3: for every store holding a post `P` under `postID`, Update succeeds and
returns a post whose id and publication date are those of `P` and whose title,
content, author and tags are exactly the new arguments (the tags of `P` are
replaced as a whole). -/
theorem MemoryStorage.update_returns (s : MemoryStorage) (postID : String)
    (P : BlogPost) (title content author : String) (tags : List String)
    (hP : s.posts.lookup postID = some P) :
    (s.UpdatePost postID title content author tags).1
      = (some { PostId := P.PostId, Title := title, Content := content,
                Author := author, PublicationDate := P.PublicationDate,
                Tags := tags }, none) := by
  rw [MemoryStorage.updatePost_of_lookup_some _ _ _ _ hP]

theorem MemoryStorage.update_returns_witness :
    (NewMemoryStorage.CreatePost "u1" ⟨1, 2⟩ "T" "C" "A" ["x", "y"]).2.posts.lookup "u1"
      = some ⟨"u1", "T", "C", "A", some ⟨1, 2⟩, ["x", "y"]⟩ ∧
    ((NewMemoryStorage.CreatePost "u1" ⟨1, 2⟩ "T" "C" "A" ["x", "y"]).2.UpdatePost
        "u1" "T2" "C2" "A2" ["z"]).1
      = (some { PostId := "u1", Title := "T2", Content := "C2", Author := "A2",
                PublicationDate := some ⟨1, 2⟩, Tags := ["z"] }, none) :=
  ⟨by decide,
   MemoryStorage.update_returns
     (NewMemoryStorage.CreatePost "u1" ⟨1, 2⟩ "T" "C" "A" ["x", "y"]).2 "u1"
     ⟨"u1", "T", "C", "A", some ⟨1, 2⟩, ["x", "y"]⟩ "T2" "C2" "A2" ["z"] (by decide)⟩

/-- C4: for every store containing `postID`, the first Delete succeeds and
removes the record: on the resulting store `postID` is no longer a key, Get
fails with the NotFound message, and a second Delete fails with the NotFound
message and leaves the store exactly as the first Delete left it. -/
theorem MemoryStorage.delete_twice (s : MemoryStorage) (postID : String)
    (hmem : postID ∈ s.posts) :
    (s.DeletePost postID).1 = none ∧
    postID ∉ (s.DeletePost postID).2.posts ∧
    ((s.DeletePost postID).2.GetPost postID).1
      = (none, some ("post with ID " ++ postID ++ " not found")) ∧
    (s.DeletePost postID).2.DeletePost postID
      = (some ("post with ID " ++ postID ++ " not found"), (s.DeletePost postID).2) := by
  obtain ⟨post, hl⟩ := Finmap.mem_iff.mp hmem
  rw [MemoryStorage.deletePost_of_lookup_some hl]
  have hl2 : (MemoryStorage.mk (s.posts.erase postID)).posts.lookup postID = none :=
    Finmap.lookup_erase postID s.posts
  refine ⟨rfl, Finmap.lookup_eq_none.mp hl2, ?_, ?_⟩
  · rw [MemoryStorage.getPost_of_lookup_none hl2]
    rfl
  · rw [MemoryStorage.deletePost_of_lookup_none hl2]
    rfl

theorem MemoryStorage.delete_twice_witness :
    "u1" ∈ (NewMemoryStorage.CreatePost "u1" ⟨1, 2⟩ "T" "C" "A" ["x"]).2.posts ∧
    ((NewMemoryStorage.CreatePost "u1" ⟨1, 2⟩ "T" "C" "A" ["x"]).2.DeletePost "u1").1
      = none ∧
    (((NewMemoryStorage.CreatePost "u1" ⟨1, 2⟩ "T" "C" "A" ["x"]).2.DeletePost
        "u1").2.DeletePost "u1").1
      = some ("post with ID " ++ "u1" ++ " not found") :=
  have h := MemoryStorage.delete_twice
    (NewMemoryStorage.CreatePost "u1" ⟨1, 2⟩ "T" "C" "A" ["x"]).2 "u1" (by decide)
  ⟨by decide, h.1, congrArg Prod.fst h.2.2.2⟩

/-- C5: Create never returns an error, whatever the inputs (empty strings and
an empty tag list included); the post it returns has the title, content,
author and tags it was given, the generated id as `PostId`, and a publication
date that is set and is the current time of the call. -/
theorem MemoryStorage.create_returns (s : MemoryStorage) (uuid : String)
    (now : Timestamp) (title content author : String) (tags : List String) :
    (s.CreatePost uuid now title content author tags).1.2 = none ∧
    ∃ P : BlogPost,
      (s.CreatePost uuid now title content author tags).1.1 = some P ∧
      P.PostId = uuid ∧ P.Title = title ∧ P.Content = content ∧
      P.Author = author ∧ P.Tags = tags ∧
      P.PublicationDate ≠ none ∧ P.PublicationDate = some now :=
  ⟨rfl, _, rfl, rfl, rfl, rfl, rfl, rfl, by simp, rfl⟩

/-! The service -/

theorem BlogServer.createPost_of_valid (s : BlogServer) (uuid : String)
    (now : Timestamp) (req : CreatePostRequest) (ht : req.Title ≠ "")
    (hc : req.Content ≠ "") (ha : req.Author ≠ "") (hd : req.PublicationDate ≠ none) :
    s.CreatePost uuid now req
      = (({ Post := some { PostId := uuid, Title := req.Title, Content := req.Content,
                           Author := req.Author, PublicationDate := some now,
                           Tags := req.Tags },
            Error := "" }, none),
         { storage :=
             (s.storage.CreatePost uuid now req.Title req.Content req.Author req.Tags).2 }) := by
  simp [BlogServer.CreatePost, MemoryStorage.CreatePost, ht, hc, ha, hd]

theorem BlogServer.readPost_of_lookup_none (s : BlogServer) (req : ReadPostRequest)
    (hid : req.PostId ≠ "") (hl : s.storage.posts.lookup req.PostId = none) :
    s.ReadPost req = (({ Post := none, Error := notFoundMsg req.PostId }, none), s) := by
  simp [BlogServer.ReadPost, hid, MemoryStorage.getPost_of_lookup_none hl]

theorem BlogServer.readPost_of_lookup_some (s : BlogServer) (req : ReadPostRequest)
    (post : BlogPost) (hid : req.PostId ≠ "")
    (hl : s.storage.posts.lookup req.PostId = some post) :
    s.ReadPost req = (({ Post := some post, Error := "" }, none), s) := by
  simp [BlogServer.ReadPost, hid, MemoryStorage.getPost_of_lookup_some hl]

theorem BlogServer.service_update_of_lookup_none (s : BlogServer) (req : UpdatePostRequest)
    (hid : req.PostId ≠ "") (ht : req.Title ≠ "") (hc : req.Content ≠ "")
    (ha : req.Author ≠ "") (hl : s.storage.posts.lookup req.PostId = none) :
    s.UpdatePost req = (({ Post := none, Error := notFoundMsg req.PostId }, none), s) := by
  simp [BlogServer.UpdatePost, hid, ht, hc, ha,
    MemoryStorage.updatePost_of_lookup_none _ _ _ _ hl]

theorem BlogServer.service_update_of_lookup_some (s : BlogServer) (req : UpdatePostRequest)
    (post : BlogPost) (hid : req.PostId ≠ "") (ht : req.Title ≠ "")
    (hc : req.Content ≠ "") (ha : req.Author ≠ "")
    (hl : s.storage.posts.lookup req.PostId = some post) :
    s.UpdatePost req
      = (({ Post := some { post with Title := req.Title, Content := req.Content,
                                     Author := req.Author, Tags := req.Tags },
            Error := "" }, none),
         { storage :=
             (s.storage.UpdatePost req.PostId req.Title req.Content req.Author
               req.Tags).2 }) := by
  simp [BlogServer.UpdatePost, hid, ht, hc, ha,
    MemoryStorage.updatePost_of_lookup_some _ _ _ _ hl]

/-- C6: CreatePost checks title, content, author and publication date in that
order and answers with the message of the first failing check only (and no
post): "title is required", else "content is required", else
"author is required", else "publication_date is required"; when all four are
present the error string is empty. -/
theorem BlogServer.createPost_validation_order (s : BlogServer) (uuid : String)
    (now : Timestamp) (req : CreatePostRequest) :
    (req.Title = "" →
      (s.CreatePost uuid now req).1.1 = { Post := none, Error := "title is required" }) ∧
    (req.Title ≠ "" → req.Content = "" →
      (s.CreatePost uuid now req).1.1
        = { Post := none, Error := "content is required" }) ∧
    (req.Title ≠ "" → req.Content ≠ "" → req.Author = "" →
      (s.CreatePost uuid now req).1.1
        = { Post := none, Error := "author is required" }) ∧
    (req.Title ≠ "" → req.Content ≠ "" → req.Author ≠ "" → req.PublicationDate = none →
      (s.CreatePost uuid now req).1.1
        = { Post := none, Error := "publication_date is required" }) ∧
    (req.Title ≠ "" → req.Content ≠ "" → req.Author ≠ "" → req.PublicationDate ≠ none →
      (s.CreatePost uuid now req).1.1.Error = "") := by
  refine ⟨?_, ?_, ?_, ?_, ?_⟩
  · intro ht
    simp [BlogServer.CreatePost, ht]
  · intro ht hc
    simp [BlogServer.CreatePost, ht, hc]
  · intro ht hc ha
    simp [BlogServer.CreatePost, ht, hc, ha]
  · intro ht hc ha hd
    simp [BlogServer.CreatePost, ht, hc, ha, hd]
  · intro ht hc ha hd
    rw [BlogServer.createPost_of_valid s uuid now req ht hc ha hd]

theorem BlogServer.createPost_validation_order_witness :
    ((NewBlogServer NewMemoryStorage).CreatePost "u1" ⟨1, 2⟩
        ⟨"", "C", "", some ⟨3, 4⟩, ["x"]⟩).1.1
      = { Post := none, Error := "title is required" } ∧
    ((NewBlogServer NewMemoryStorage).CreatePost "u1" ⟨1, 2⟩
        ⟨"T", "C", "A", none, ["x"]⟩).1.1
      = { Post := none, Error := "publication_date is required" } :=
  ⟨(BlogServer.createPost_validation_order (NewBlogServer NewMemoryStorage) "u1" ⟨1, 2⟩
      ⟨"", "C", "", some ⟨3, 4⟩, ["x"]⟩).1 rfl,
   (BlogServer.createPost_validation_order (NewBlogServer NewMemoryStorage) "u1" ⟨1, 2⟩
      ⟨"T", "C", "A", none, ["x"]⟩).2.2.2.1 (by decide) (by decide) (by decide) rfl⟩

/-- C7: UpdatePost checks id, title, content and author in that order and
answers with the message of the first failing check only: "post_id is required"
whenever the id is empty, whatever the other fields and the store; else
"title is required"; else "content is required"; else "author is required".
The tags are not validated: with the four fields non-empty the answer is the
outcome of the store for any tag list (the empty one included), and the error
string of the answer never depends on the tags. -/
theorem BlogServer.updatePost_validation_order (s : BlogServer)
    (req : UpdatePostRequest) :
    (req.PostId = "" →
      (s.UpdatePost req).1.1 = { Post := none, Error := "post_id is required" }) ∧
    (req.PostId ≠ "" → req.Title = "" →
      (s.UpdatePost req).1.1 = { Post := none, Error := "title is required" }) ∧
    (req.PostId ≠ "" → req.Title ≠ "" → req.Content = "" →
      (s.UpdatePost req).1.1 = { Post := none, Error := "content is required" }) ∧
    (req.PostId ≠ "" → req.Title ≠ "" → req.Content ≠ "" → req.Author = "" →
      (s.UpdatePost req).1.1 = { Post := none, Error := "author is required" }) ∧
    (req.PostId ≠ "" → req.Title ≠ "" → req.Content ≠ "" → req.Author ≠ "" →
      (req.PostId ∈ s.storage.posts →
        (s.UpdatePost req).1.1.Error = "" ∧
        ∃ P : BlogPost, (s.UpdatePost req).1.1.Post = some P ∧ P.Tags = req.Tags) ∧
      (req.PostId ∉ s.storage.posts →
        (s.UpdatePost req).1.1
          = { Post := none,
              Error := "post with ID " ++ req.PostId ++ " not found" })) ∧
    (∀ tags : List String,
      (s.UpdatePost { req with Tags := tags }).1.1.Error = (s.UpdatePost req).1.1.Error) := by
  refine ⟨?_, ?_, ?_, ?_, ?_, ?_⟩
  · intro hid
    simp [BlogServer.UpdatePost, hid]
  · intro hid ht
    simp [BlogServer.UpdatePost, hid, ht]
  · intro hid ht hc
    simp [BlogServer.UpdatePost, hid, ht, hc]
  · intro hid ht hc ha
    simp [BlogServer.UpdatePost, hid, ht, hc, ha]
  · intro hid ht hc ha
    constructor
    · intro hmem
      obtain ⟨post, hl⟩ := Finmap.mem_iff.mp hmem
      rw [BlogServer.service_update_of_lookup_some s req post hid ht hc ha hl]
      exact ⟨rfl, _, rfl, rfl⟩
    · intro hmem
      rw [BlogServer.service_update_of_lookup_none s req hid ht hc ha
        (Finmap.lookup_eq_none.mpr hmem)]
      rfl
  · intro tags
    by_cases hid : req.PostId = ""
    · simp [BlogServer.UpdatePost, hid]
    by_cases ht : req.Title = ""
    · simp [BlogServer.UpdatePost, hid, ht]
    by_cases hc : req.Content = ""
    · simp [BlogServer.UpdatePost, hid, ht, hc]
    by_cases ha : req.Author = ""
    · simp [BlogServer.UpdatePost, hid, ht, hc, ha]
    cases hl : s.storage.posts.lookup req.PostId with
    | none =>
      rw [BlogServer.service_update_of_lookup_none s req hid ht hc ha hl,
        BlogServer.service_update_of_lookup_none s { req with Tags := tags } hid ht hc ha hl]
    | some post =>
      rw [BlogServer.service_update_of_lookup_some s req post hid ht hc ha hl,
        BlogServer.service_update_of_lookup_some s { req with Tags := tags } post hid ht hc
          ha hl]

theorem BlogServer.updatePost_validation_order_witness :
    ((NewBlogServer (NewMemoryStorage.CreatePost "u1" ⟨1, 2⟩ "T" "C" "A" ["x"]).2).UpdatePost
        ⟨"", "", "C2", "", ["z"]⟩).1.1
      = { Post := none, Error := "post_id is required" } ∧
    ((NewBlogServer (NewMemoryStorage.CreatePost "u1" ⟨1, 2⟩ "T" "C" "A" ["x"]).2).UpdatePost
        ⟨"u1", "T2", "C2", "A2", []⟩).1.1.Error = "" :=
  ⟨(BlogServer.updatePost_validation_order
      (NewBlogServer (NewMemoryStorage.CreatePost "u1" ⟨1, 2⟩ "T" "C" "A" ["x"]).2)
      ⟨"", "", "C2", "", ["z"]⟩).1 rfl,
   (((BlogServer.updatePost_validation_order
      (NewBlogServer (NewMemoryStorage.CreatePost "u1" ⟨1, 2⟩ "T" "C" "A" ["x"]).2)
      ⟨"u1", "T2", "C2", "A2", []⟩).2.2.2.2.1 (by decide) (by decide) (by decide)
      (by decide)).1 (by decide)).1⟩

/-- C8: for every store and every request, each of CreatePost, ReadPost and
UpdatePost returns no transport-level error, and its response either carries a
post and an empty error string, or carries no post and a non-empty error
string. -/
theorem BlogServer.response_post_xor_error (s : BlogServer) (uuid : String)
    (now : Timestamp) (creq : CreatePostRequest) (rreq : ReadPostRequest)
    (ureq : UpdatePostRequest) :
    ((s.CreatePost uuid now creq).1.2 = none ∧
      (((s.CreatePost uuid now creq).1.1.Post ≠ none ∧
          (s.CreatePost uuid now creq).1.1.Error = "") ∨
        ((s.CreatePost uuid now creq).1.1.Post = none ∧
          (s.CreatePost uuid now creq).1.1.Error ≠ ""))) ∧
    ((s.ReadPost rreq).1.2 = none ∧
      (((s.ReadPost rreq).1.1.Post ≠ none ∧ (s.ReadPost rreq).1.1.Error = "") ∨
        ((s.ReadPost rreq).1.1.Post = none ∧ (s.ReadPost rreq).1.1.Error ≠ ""))) ∧
    ((s.UpdatePost ureq).1.2 = none ∧
      (((s.UpdatePost ureq).1.1.Post ≠ none ∧ (s.UpdatePost ureq).1.1.Error = "") ∨
        ((s.UpdatePost ureq).1.1.Post = none ∧ (s.UpdatePost ureq).1.1.Error ≠ ""))) := by
  refine ⟨?_, ?_, ?_⟩
  · by_cases ht : creq.Title = ""
    · simp [BlogServer.CreatePost, ht]
    by_cases hc : creq.Content = ""
    · simp [BlogServer.CreatePost, ht, hc]
    by_cases ha : creq.Author = ""
    · simp [BlogServer.CreatePost, ht, hc, ha]
    by_cases hd : creq.PublicationDate = none
    · simp [BlogServer.CreatePost, ht, hc, ha, hd]
    rw [BlogServer.createPost_of_valid s uuid now creq ht hc ha hd]
    simp
  · by_cases hid : rreq.PostId = ""
    · simp [BlogServer.ReadPost, hid]
    cases hl : s.storage.posts.lookup rreq.PostId with
    | none =>
      rw [BlogServer.readPost_of_lookup_none s rreq hid hl]
      exact ⟨rfl, Or.inr ⟨rfl, notFoundMsg_ne_empty _⟩⟩
    | some post =>
      rw [BlogServer.readPost_of_lookup_some s rreq post hid hl]
      simp
  · by_cases hid : ureq.PostId = ""
    · simp [BlogServer.UpdatePost, hid]
    by_cases ht : ureq.Title = ""
    · simp [BlogServer.UpdatePost, hid, ht]
    by_cases hc : ureq.Content = ""
    · simp [BlogServer.UpdatePost, hid, ht, hc]
    by_cases ha : ureq.Author = ""
    · simp [BlogServer.UpdatePost, hid, ht, hc, ha]
    cases hl : s.storage.posts.lookup ureq.PostId with
    | none =>
      rw [BlogServer.service_update_of_lookup_none s ureq hid ht hc ha hl]
      exact ⟨rfl, Or.inr ⟨rfl, notFoundMsg_ne_empty _⟩⟩
    | some post =>
      rw [BlogServer.service_update_of_lookup_some s ureq post hid ht hc ha hl]
      simp

/-- C9: whenever one of the four service operations rejects a request because
a required field is missing, the store is left exactly as it was (so the
number of stored posts is the same) and the response carries no post (for
DeletePost: no success); in particular CreatePost with an empty title answers
"title is required" and leaves the store untouched. -/
theorem BlogServer.validation_error_keeps_store (s : BlogServer) (uuid : String)
    (now : Timestamp) (creq : CreatePostRequest) (rreq : ReadPostRequest)
    (ureq : UpdatePostRequest) (dreq : DeletePostRequest) :
    (creq.Title = "" ∨ creq.Content = "" ∨ creq.Author = "" ∨
        creq.PublicationDate = none →
      (s.CreatePost uuid now creq).2 = s ∧
      (s.CreatePost uuid now creq).2.storage.size = s.storage.size ∧
      (s.CreatePost uuid now creq).1.1.Post = none) ∧
    (rreq.PostId = "" →
      (s.ReadPost rreq).2 = s ∧
      (s.ReadPost rreq).2.storage.size = s.storage.size ∧
      (s.ReadPost rreq).1.1.Post = none) ∧
    (ureq.PostId = "" ∨ ureq.Title = "" ∨ ureq.Content = "" ∨ ureq.Author = "" →
      (s.UpdatePost ureq).2 = s ∧
      (s.UpdatePost ureq).2.storage.size = s.storage.size ∧
      (s.UpdatePost ureq).1.1.Post = none) ∧
    (dreq.PostId = "" →
      (s.DeletePost dreq).2 = s ∧
      (s.DeletePost dreq).2.storage.size = s.storage.size ∧
      (s.DeletePost dreq).1.1.Success = false) ∧
    (creq.Title = "" →
      s.CreatePost uuid now creq
        = (({ Post := none, Error := "title is required" }, none), s)) := by
  refine ⟨?_, ?_, ?_, ?_, ?_⟩
  · intro h
    have hs : (s.CreatePost uuid now creq).2 = s ∧
        (s.CreatePost uuid now creq).1.1.Post = none := by
      by_cases ht : creq.Title = ""
      · simp [BlogServer.CreatePost, ht]
      by_cases hc : creq.Content = ""
      · simp [BlogServer.CreatePost, ht, hc]
      by_cases ha : creq.Author = ""
      · simp [BlogServer.CreatePost, ht, hc, ha]
      by_cases hd : creq.PublicationDate = none
      · simp [BlogServer.CreatePost, ht, hc, ha, hd]
      · simp [ht, hc, ha, hd] at h
    exact ⟨hs.1, by rw [hs.1], hs.2⟩
  · intro hid
    have hs : (s.ReadPost rreq).2 = s ∧ (s.ReadPost rreq).1.1.Post = none := by
      simp [BlogServer.ReadPost, hid]
    exact ⟨hs.1, by rw [hs.1], hs.2⟩
  · intro h
    have hs : (s.UpdatePost ureq).2 = s ∧ (s.UpdatePost ureq).1.1.Post = none := by
      by_cases hid : ureq.PostId = ""
      · simp [BlogServer.UpdatePost, hid]
      by_cases ht : ureq.Title = ""
      · simp [BlogServer.UpdatePost, hid, ht]
      by_cases hc : ureq.Content = ""
      · simp [BlogServer.UpdatePost, hid, ht, hc]
      by_cases ha : ureq.Author = ""
      · simp [BlogServer.UpdatePost, hid, ht, hc, ha]
      · simp [hid, ht, hc, ha] at h
    exact ⟨hs.1, by rw [hs.1], hs.2⟩
  · intro hid
    have hs : (s.DeletePost dreq).2 = s ∧ (s.DeletePost dreq).1.1.Success = false := by
      simp [BlogServer.DeletePost, hid]
    exact ⟨hs.1, by rw [hs.1], hs.2⟩
  · intro ht
    simp [BlogServer.CreatePost, ht]

theorem BlogServer.validation_error_keeps_store_witness :
    (NewBlogServer (NewMemoryStorage.CreatePost "u1" ⟨1, 2⟩ "T" "C" "A" ["x"]).2).CreatePost
        "u2" ⟨5, 6⟩ ⟨"", "C", "A", some ⟨3, 4⟩, ["x"]⟩
      = (({ Post := none, Error := "title is required" }, none),
         NewBlogServer (NewMemoryStorage.CreatePost "u1" ⟨1, 2⟩ "T" "C" "A" ["x"]).2) ∧
    ((NewBlogServer (NewMemoryStorage.CreatePost "u1" ⟨1, 2⟩ "T" "C" "A" ["x"]).2).UpdatePost
        ⟨"u1", "T2", "", "A2", []⟩).2.storage.size = 1 :=
  have h := BlogServer.validation_error_keeps_store
    (NewBlogServer (NewMemoryStorage.CreatePost "u1" ⟨1, 2⟩ "T" "C" "A" ["x"]).2)
    "u2" ⟨5, 6⟩ ⟨"", "C", "A", some ⟨3, 4⟩, ["x"]⟩ ⟨""⟩ ⟨"u1", "T2", "", "A2", []⟩ ⟨""⟩
  ⟨h.2.2.2.2 rfl, (h.2.2.1 (Or.inr (Or.inr (Or.inl rfl)))).2.1.trans (by decide)⟩

/-- C10: for every store and id, ReadPost answers "post_id is required" with no
post when the id is empty; otherwise its answer is the outcome of Get on the
store: the stored post with an empty error string when the id is a key (and in
every store the program can reach, that post carries the requested id as its
`PostId`), and no post with the message "post with ID <id> not found" when it is
not a key. -/
theorem BlogServer.readPost_outcome (s : BlogServer) (req : ReadPostRequest) :
    (req.PostId = "" →
      (s.ReadPost req).1.1 = { Post := none, Error := "post_id is required" }) ∧
    (req.PostId ≠ "" →
      (s.ReadPost req).1.1.Post = (s.storage.GetPost req.PostId).1.1 ∧
      (s.ReadPost req).1.1.Error = ((s.storage.GetPost req.PostId).1.2).getD "") ∧
    (req.PostId ≠ "" → ∀ P : BlogPost, s.storage.posts.lookup req.PostId = some P →
      (s.ReadPost req).1.1 = { Post := some P, Error := "" } ∧
      (s.storage.Reachable → P.PostId = req.PostId)) ∧
    (req.PostId ≠ "" → req.PostId ∉ s.storage.posts →
      (s.ReadPost req).1.1
        = { Post := none, Error := "post with ID " ++ req.PostId ++ " not found" }) := by
  refine ⟨?_, ?_, ?_, ?_⟩
  · intro hid
    simp [BlogServer.ReadPost, hid]
  · intro hid
    cases hl : s.storage.posts.lookup req.PostId with
    | none =>
      rw [BlogServer.readPost_of_lookup_none s req hid hl,
        MemoryStorage.getPost_of_lookup_none hl]
      exact ⟨rfl, rfl⟩
    | some post =>
      rw [BlogServer.readPost_of_lookup_some s req post hid hl,
        MemoryStorage.getPost_of_lookup_some hl]
      exact ⟨rfl, rfl⟩
  · intro hid P hl
    rw [BlogServer.readPost_of_lookup_some s req P hid hl]
    exact ⟨rfl, fun hr => hr.postId_eq_key req.PostId P hl⟩
  · intro hid hmem
    rw [BlogServer.readPost_of_lookup_none s req hid (Finmap.lookup_eq_none.mpr hmem)]
    rfl

theorem BlogServer.readPost_outcome_witness :
    ((NewBlogServer (NewMemoryStorage.CreatePost "u1" ⟨1, 2⟩ "T" "C" "A" ["x"]).2).ReadPost
        ⟨"u1"⟩).1.1
      = { Post := some ⟨"u1", "T", "C", "A", some ⟨1, 2⟩, ["x"]⟩, Error := "" } ∧
    (⟨"u1", "T", "C", "A", some ⟨1, 2⟩, ["x"]⟩ : BlogPost).PostId = "u1" ∧
    ((NewBlogServer (NewMemoryStorage.CreatePost "u1" ⟨1, 2⟩ "T" "C" "A" ["x"]).2).ReadPost
        ⟨"u2"⟩).1.1
      = { Post := none, Error := "post with ID " ++ "u2" ++ " not found" } :=
  have h1 := (BlogServer.readPost_outcome
    (NewBlogServer (NewMemoryStorage.CreatePost "u1" ⟨1, 2⟩ "T" "C" "A" ["x"]).2)
    ⟨"u1"⟩).2.2.1 (by decide) ⟨"u1", "T", "C", "A", some ⟨1, 2⟩, ["x"]⟩ (by decide)
  ⟨h1.1,
   h1.2 (MemoryStorage.Reachable.create _ "u1" ⟨1, 2⟩ "T" "C" "A" ["x"]
     MemoryStorage.Reachable.new),
   (BlogServer.readPost_outcome
    (NewBlogServer (NewMemoryStorage.CreatePost "u1" ⟨1, 2⟩ "T" "C" "A" ["x"]).2)
    ⟨"u2"⟩).2.2.2 (by decide) (by decide)⟩

theorem BlogServer.service_delete_of_lookup_none (s : BlogServer)
    (req : DeletePostRequest) (hid : req.PostId ≠ "")
    (hl : s.storage.posts.lookup req.PostId = none) :
    s.DeletePost req
      = (({ Success := false, Error := notFoundMsg req.PostId }, none), s) := by
  simp [BlogServer.DeletePost, hid, MemoryStorage.deletePost_of_lookup_none hl]

theorem BlogServer.service_delete_of_lookup_some (s : BlogServer)
    (req : DeletePostRequest) (post : BlogPost) (hid : req.PostId ≠ "")
    (hl : s.storage.posts.lookup req.PostId = some post) :
    s.DeletePost req
      = (({ Success := true, Error := "" }, none),
         { storage := { posts := s.storage.posts.erase req.PostId } }) := by
  simp [BlogServer.DeletePost, hid, MemoryStorage.deletePost_of_lookup_some hl]

/-- C11: for every store and id, DeletePost answers success=true exactly when
its error string is empty, and exactly when the id is non-empty and a key of
the store; with an empty id it answers success=false and "post_id is required",
and with a non-empty id that is not a key it answers success=false and the
message "post with ID <id> not found" of the store. -/
theorem BlogServer.deletePost_outcome (s : BlogServer) (req : DeletePostRequest) :
    ((s.DeletePost req).1.1.Success = true ↔ (s.DeletePost req).1.1.Error = "") ∧
    ((s.DeletePost req).1.1.Success = true ↔
      (req.PostId ≠ "" ∧ req.PostId ∈ s.storage.posts)) ∧
    (req.PostId = "" →
      (s.DeletePost req).1.1 = { Success := false, Error := "post_id is required" }) ∧
    (req.PostId ≠ "" → req.PostId ∉ s.storage.posts →
      (s.DeletePost req).1.1
        = { Success := false,
            Error := "post with ID " ++ req.PostId ++ " not found" }) := by
  by_cases hid : req.PostId = ""
  · simp [BlogServer.DeletePost, hid]
  cases hl : s.storage.posts.lookup req.PostId with
  | none =>
    have hmem : req.PostId ∉ s.storage.posts := Finmap.lookup_eq_none.mp hl
    rw [BlogServer.service_delete_of_lookup_none s req hid hl]
    have hne : "post with ID " ++ req.PostId ++ " not found" ≠ "" :=
      notFoundMsg_ne_empty req.PostId
    simp [hid, hmem, hne, notFoundMsg]
  | some post =>
    have hmem : req.PostId ∈ s.storage.posts := Finmap.mem_of_lookup_eq_some hl
    rw [BlogServer.service_delete_of_lookup_some s req post hid hl]
    simp [hid, hmem]

theorem BlogServer.deletePost_outcome_witness :
    ((NewBlogServer (NewMemoryStorage.CreatePost "u1" ⟨1, 2⟩ "T" "C" "A" ["x"]).2).DeletePost
        ⟨""⟩).1.1
      = { Success := false, Error := "post_id is required" } ∧
    ((NewBlogServer (NewMemoryStorage.CreatePost "u1" ⟨1, 2⟩ "T" "C" "A" ["x"]).2).DeletePost
        ⟨"u2"⟩).1.1
      = { Success := false, Error := "post with ID " ++ "u2" ++ " not found" } ∧
    ((NewBlogServer (NewMemoryStorage.CreatePost "u1" ⟨1, 2⟩ "T" "C" "A" ["x"]).2).DeletePost
        ⟨"u1"⟩).1.1.Success = true :=
  ⟨(BlogServer.deletePost_outcome
      (NewBlogServer (NewMemoryStorage.CreatePost "u1" ⟨1, 2⟩ "T" "C" "A" ["x"]).2)
      ⟨""⟩).2.2.1 rfl,
   (BlogServer.deletePost_outcome
      (NewBlogServer (NewMemoryStorage.CreatePost "u1" ⟨1, 2⟩ "T" "C" "A" ["x"]).2)
      ⟨"u2"⟩).2.2.2 (by decide) (by decide),
   (BlogServer.deletePost_outcome
      (NewBlogServer (NewMemoryStorage.CreatePost "u1" ⟨1, 2⟩ "T" "C" "A" ["x"]).2)
      ⟨"u1"⟩).2.1.mpr ⟨by decide, by decide⟩⟩

/-- C12: for every UpdatePost request with a non-empty id, title, content and
author, the response and the resulting store are those of Update on the store
with the request's id, title, content, author and tags: the post and the
error message of the response are the ones the store returned (an absent error
being the empty string) and the store of the service afterwards is the store
Update left.  If the id is a key, the response carries the stored post with
the request's title, content, author and tags; if it is not, the response
carries no post and the message "post with ID <id> not found". -/
theorem BlogServer.updatePost_refines_store (s : BlogServer) (req : UpdatePostRequest)
    (hid : req.PostId ≠ "") (ht : req.Title ≠ "") (hc : req.Content ≠ "")
    (ha : req.Author ≠ "") :
    (s.UpdatePost req).1.1.Post
      = (s.storage.UpdatePost req.PostId req.Title req.Content req.Author req.Tags).1.1 ∧
    (s.UpdatePost req).1.1.Error
      = ((s.storage.UpdatePost req.PostId req.Title req.Content req.Author
            req.Tags).1.2).getD "" ∧
    (s.UpdatePost req).2.storage
      = (s.storage.UpdatePost req.PostId req.Title req.Content req.Author req.Tags).2 ∧
    (∀ P : BlogPost, s.storage.posts.lookup req.PostId = some P →
      (s.UpdatePost req).1.1
        = { Post := some { PostId := P.PostId, Title := req.Title,
                           Content := req.Content, Author := req.Author,
                           PublicationDate := P.PublicationDate, Tags := req.Tags },
            Error := "" }) ∧
    (req.PostId ∉ s.storage.posts →
      (s.UpdatePost req).1.1
        = { Post := none, Error := "post with ID " ++ req.PostId ++ " not found" }) := by
  cases hl : s.storage.posts.lookup req.PostId with
  | none =>
    rw [BlogServer.service_update_of_lookup_none s req hid ht hc ha hl,
      MemoryStorage.updatePost_of_lookup_none _ _ _ _ hl]
    refine ⟨rfl, rfl, rfl, ?_, fun _ => rfl⟩
    intro P hP
    exact absurd hP (by simp)
  | some post =>
    rw [BlogServer.service_update_of_lookup_some s req post hid ht hc ha hl,
      MemoryStorage.updatePost_of_lookup_some _ _ _ _ hl]
    refine ⟨rfl, rfl, rfl, ?_, ?_⟩
    · intro P hP
      cases hP
      rfl
    · intro hmem
      exact absurd (Finmap.mem_of_lookup_eq_some hl) hmem

theorem BlogServer.updatePost_refines_store_witness :
    ((NewBlogServer (NewMemoryStorage.CreatePost "u1" ⟨1, 2⟩ "T" "C" "A" ["x"]).2).UpdatePost
        ⟨"u1", "T2", "C2", "A2", ["z"]⟩).1.1
      = { Post := some ⟨"u1", "T2", "C2", "A2", some ⟨1, 2⟩, ["z"]⟩, Error := "" } ∧
    ((NewBlogServer (NewMemoryStorage.CreatePost "u1" ⟨1, 2⟩ "T" "C" "A" ["x"]).2).UpdatePost
        ⟨"u1", "T2", "C2", "A2", ["z"]⟩).2.storage
      = ((NewMemoryStorage.CreatePost "u1" ⟨1, 2⟩ "T" "C" "A" ["x"]).2.UpdatePost
          "u1" "T2" "C2" "A2" ["z"]).2 :=
  have h := BlogServer.updatePost_refines_store
    (NewBlogServer (NewMemoryStorage.CreatePost "u1" ⟨1, 2⟩ "T" "C" "A" ["x"]).2)
    ⟨"u1", "T2", "C2", "A2", ["z"]⟩ (by decide) (by decide) (by decide) (by decide)
  ⟨h.2.2.2.1 ⟨"u1", "T", "C", "A", some ⟨1, 2⟩, ["x"]⟩ (by decide), h.2.2.1⟩

/-- C14: Update on the store is idempotent.  For every store and all
arguments, a second Update with the same arguments, run on the store the first
one left, returns the same post and the same error (so the same outcome,
success or NotFound) and leaves the same store as the first one. -/
theorem MemoryStorage.update_idempotent (s : MemoryStorage)
    (postID title content author : String) (tags : List String) :
    (s.UpdatePost postID title content author tags).2.UpdatePost postID title content
        author tags
      = s.UpdatePost postID title content author tags := by
  cases hl : s.posts.lookup postID with
  | none =>
    rw [MemoryStorage.updatePost_of_lookup_none _ _ _ _ hl,
      MemoryStorage.updatePost_of_lookup_none _ _ _ _ hl]
  | some post =>
    rw [MemoryStorage.updatePost_of_lookup_some _ _ _ _ hl]
    have hl2 : (MemoryStorage.mk (s.posts.insert postID
        { post with Title := title, Content := content, Author := author,
                    Tags := tags })).posts.lookup postID
        = some { post with Title := title, Content := content, Author := author,
                           Tags := tags } :=
      Finmap.lookup_insert s.posts
    rw [MemoryStorage.updatePost_of_lookup_some _ _ _ _ hl2]
    simp only [Finmap.insert_insert]

/-- C15: the full scenario on a fresh service, for every non-empty generated
id, every current time and every supplied date.  CreatePost of
("T","C","A",date,["x","y"]) returns a post `P` with title "T" and tags
["x","y"] and no error; ReadPost of `P.PostId` returns `P`; UpdatePost of
(`P.PostId`,"T2","C2","A2",["z"]) returns a post with the same id and title
"T2" and no error; DeletePost of `P.PostId` returns success=true and no error;
the following ReadPost of `P.PostId` returns no post and the error
"post with ID <id> not found" for that id. -/
theorem BlogServer.crud_scenario (uuid : String) (now date : Timestamp)
    (huuid : uuid ≠ "") :
    ∃ (P P2 : BlogPost) (s1 s2 s3 : BlogServer),
      (NewBlogServer NewMemoryStorage).CreatePost uuid now
          ⟨"T", "C", "A", some date, ["x", "y"]⟩
        = (({ Post := some P, Error := "" }, none), s1) ∧
      P.Title = "T" ∧ P.Tags = ["x", "y"] ∧
      s1.ReadPost ⟨P.PostId⟩ = (({ Post := some P, Error := "" }, none), s1) ∧
      s1.UpdatePost ⟨P.PostId, "T2", "C2", "A2", ["z"]⟩
        = (({ Post := some P2, Error := "" }, none), s2) ∧
      P2.PostId = P.PostId ∧ P2.Title = "T2" ∧
      s2.DeletePost ⟨P.PostId⟩ = (({ Success := true, Error := "" }, none), s3) ∧
      s3.ReadPost ⟨P.PostId⟩
        = (({ Post := none, Error := "post with ID " ++ P.PostId ++ " not found" }, none),
           s3) := by
  have hl1 : (BlogServer.mk (MemoryStorage.mk ((∅ : Finmap (fun _ : String => BlogPost)).insert
      uuid ⟨uuid, "T", "C", "A", some now, ["x", "y"]⟩))).storage.posts.lookup
        (ReadPostRequest.mk uuid).PostId
      = some ⟨uuid, "T", "C", "A", some now, ["x", "y"]⟩ :=
    Finmap.lookup_insert _
  have hl2 : (BlogServer.mk (MemoryStorage.mk (((∅ : Finmap (fun _ : String => BlogPost)).insert
      uuid ⟨uuid, "T", "C", "A", some now, ["x", "y"]⟩).insert uuid
        ⟨uuid, "T2", "C2", "A2", some now, ["z"]⟩))).storage.posts.lookup
        (DeletePostRequest.mk uuid).PostId
      = some ⟨uuid, "T2", "C2", "A2", some now, ["z"]⟩ :=
    Finmap.lookup_insert _
  have hl3 : (BlogServer.mk (MemoryStorage.mk ((((∅ : Finmap (fun _ : String => BlogPost)).insert
      uuid ⟨uuid, "T", "C", "A", some now, ["x", "y"]⟩).insert uuid
        ⟨uuid, "T2", "C2", "A2", some now, ["z"]⟩).erase uuid))).storage.posts.lookup
        (ReadPostRequest.mk uuid).PostId
      = none :=
    Finmap.lookup_erase _ _
  refine ⟨⟨uuid, "T", "C", "A", some now, ["x", "y"]⟩,
    ⟨uuid, "T2", "C2", "A2", some now, ["z"]⟩,
    BlogServer.mk (MemoryStorage.mk ((∅ : Finmap (fun _ : String => BlogPost)).insert
      uuid ⟨uuid, "T", "C", "A", some now, ["x", "y"]⟩)),
    BlogServer.mk (MemoryStorage.mk (((∅ : Finmap (fun _ : String => BlogPost)).insert
      uuid ⟨uuid, "T", "C", "A", some now, ["x", "y"]⟩).insert uuid
        ⟨uuid, "T2", "C2", "A2", some now, ["z"]⟩)),
    BlogServer.mk (MemoryStorage.mk ((((∅ : Finmap (fun _ : String => BlogPost)).insert
      uuid ⟨uuid, "T", "C", "A", some now, ["x", "y"]⟩).insert uuid
        ⟨uuid, "T2", "C2", "A2", some now, ["z"]⟩).erase uuid)),
    ?_, rfl, rfl, ?_, ?_, rfl, rfl, ?_, ?_⟩
  · rw [BlogServer.createPost_of_valid _ uuid now _ (show "T" ≠ "" by decide)
      (show "C" ≠ "" by decide) (show "A" ≠ "" by decide) (by simp)]
    rfl
  · exact BlogServer.readPost_of_lookup_some _ ⟨uuid⟩ _ huuid hl1
  · rw [BlogServer.service_update_of_lookup_some _ ⟨uuid, "T2", "C2", "A2", ["z"]⟩ _ huuid
      (show "T2" ≠ "" by decide) (show "C2" ≠ "" by decide) (show "A2" ≠ "" by decide) hl1,
      MemoryStorage.updatePost_of_lookup_some _ _ _ _ hl1]
  · exact BlogServer.service_delete_of_lookup_some _ ⟨uuid⟩ _ huuid hl2
  · exact BlogServer.readPost_of_lookup_none _ ⟨uuid⟩ huuid hl3

theorem BlogServer.crud_scenario_witness :
    "u1" ≠ "" ∧
    ∃ (P P2 : BlogPost) (s1 s2 s3 : BlogServer),
      (NewBlogServer NewMemoryStorage).CreatePost "u1" ⟨1, 2⟩
          ⟨"T", "C", "A", some ⟨3, 4⟩, ["x", "y"]⟩
        = (({ Post := some P, Error := "" }, none), s1) ∧
      P.Title = "T" ∧ P.Tags = ["x", "y"] ∧
      s1.ReadPost ⟨P.PostId⟩ = (({ Post := some P, Error := "" }, none), s1) ∧
      s1.UpdatePost ⟨P.PostId, "T2", "C2", "A2", ["z"]⟩
        = (({ Post := some P2, Error := "" }, none), s2) ∧
      P2.PostId = P.PostId ∧ P2.Title = "T2" ∧
      s2.DeletePost ⟨P.PostId⟩ = (({ Success := true, Error := "" }, none), s3) ∧
      s3.ReadPost ⟨P.PostId⟩
        = (({ Post := none, Error := "post with ID " ++ P.PostId ++ " not found" }, none),
           s3) :=
  ⟨by decide, BlogServer.crud_scenario "u1" ⟨1, 2⟩ ⟨3, 4⟩ (by decide)⟩

/-! Lookups after a store operation -/

theorem MemoryStorage.lookup_createPost (s : MemoryStorage) (uuid : String)
    (now : Timestamp) (title content author : String) (tags : List String) (k : String) :
    (s.CreatePost uuid now title content author tags).2.posts.lookup k
      = if k = uuid then
          some { PostId := uuid, Title := title, Content := content, Author := author,
                 PublicationDate := some now, Tags := tags }
        else s.posts.lookup k := by
  by_cases hk : k = uuid
  · subst hk
    simp [MemoryStorage.CreatePost, Finmap.lookup_insert]
  · simp only [MemoryStorage.CreatePost, if_neg hk]
    exact Finmap.lookup_insert_of_ne _ hk

theorem MemoryStorage.lookup_updatePost (s : MemoryStorage)
    (postID title content author : String) (tags : List String) (k : String) :
    (s.UpdatePost postID title content author tags).2.posts.lookup k
      = if k = postID then
          (s.posts.lookup postID).map fun post =>
            { post with Title := title, Content := content, Author := author,
                        Tags := tags }
        else s.posts.lookup k := by
  cases hl : s.posts.lookup postID with
  | none =>
    rw [MemoryStorage.updatePost_of_lookup_none _ _ _ _ hl]
    by_cases hk : k = postID
    · subst hk
      simp [hl]
    · simp [hk]
  | some post =>
    rw [MemoryStorage.updatePost_of_lookup_some _ _ _ _ hl]
    by_cases hk : k = postID
    · subst hk
      simp [Finmap.lookup_insert]
    · simp only [if_neg hk]
      exact Finmap.lookup_insert_of_ne _ hk

theorem MemoryStorage.lookup_deletePost (s : MemoryStorage) (postID k : String) :
    (s.DeletePost postID).2.posts.lookup k
      = if k = postID then none else s.posts.lookup k := by
  cases hl : s.posts.lookup postID with
  | none =>
    rw [MemoryStorage.deletePost_of_lookup_none hl]
    by_cases hk : k = postID
    · subst hk
      simp [hl]
    · simp [hk]
  | some post =>
    rw [MemoryStorage.deletePost_of_lookup_some hl]
    by_cases hk : k = postID
    · subst hk
      simp [Finmap.lookup_erase]
    · simp only [if_neg hk]
      exact Finmap.lookup_erase_ne hk

/-- C16: the publication date is immutable after creation.  For each store
operation (Create with a generated id that is not yet a key, Get, Update,
Delete) and every key `k` that holds a post `p` before the operation and a post
`q` after it, `q` has the publication date and the id of `p`. -/
theorem MemoryStorage.publicationDate_immutable (s : MemoryStorage) (uuid : String)
    (now : Timestamp) (postID title content author : String) (tags : List String)
    (k : String) (p q : BlogPost) (hp : s.posts.lookup k = some p) :
    (uuid ∉ s.posts →
      (s.CreatePost uuid now title content author tags).2.posts.lookup k = some q →
      q.PublicationDate = p.PublicationDate ∧ q.PostId = p.PostId) ∧
    ((s.GetPost postID).2.posts.lookup k = some q →
      q.PublicationDate = p.PublicationDate ∧ q.PostId = p.PostId) ∧
    ((s.UpdatePost postID title content author tags).2.posts.lookup k = some q →
      q.PublicationDate = p.PublicationDate ∧ q.PostId = p.PostId) ∧
    ((s.DeletePost postID).2.posts.lookup k = some q →
      q.PublicationDate = p.PublicationDate ∧ q.PostId = p.PostId) := by
  refine ⟨?_, ?_, ?_, ?_⟩
  · intro hfresh hq
    have hk : k ≠ uuid := by
      intro h
      subst h
      exact hfresh (Finmap.mem_of_lookup_eq_some hp)
    rw [MemoryStorage.lookup_createPost, if_neg hk, hp] at hq
    cases hq
    exact ⟨rfl, rfl⟩
  · intro hq
    rw [MemoryStorage.getPost_store, hp] at hq
    cases hq
    exact ⟨rfl, rfl⟩
  · intro hq
    rw [MemoryStorage.lookup_updatePost] at hq
    by_cases hk : k = postID
    · subst hk
      rw [if_pos rfl, hp] at hq
      cases hq
      exact ⟨rfl, rfl⟩
    · rw [if_neg hk, hp] at hq
      cases hq
      exact ⟨rfl, rfl⟩
  · intro hq
    rw [MemoryStorage.lookup_deletePost] at hq
    by_cases hk : k = postID
    · rw [if_pos hk] at hq
      cases hq
    · rw [if_neg hk, hp] at hq
      cases hq
      exact ⟨rfl, rfl⟩

theorem MemoryStorage.publicationDate_immutable_witness :
    (NewMemoryStorage.CreatePost "u1" ⟨1, 2⟩ "T" "C" "A" ["x"]).2.posts.lookup "u1"
      = some ⟨"u1", "T", "C", "A", some ⟨1, 2⟩, ["x"]⟩ ∧
    ((NewMemoryStorage.CreatePost "u1" ⟨1, 2⟩ "T" "C" "A" ["x"]).2.UpdatePost
        "u1" "T2" "C2" "A2" ["z"]).2.posts.lookup "u1"
      = some ⟨"u1", "T2", "C2", "A2", some ⟨1, 2⟩, ["z"]⟩ ∧
    (⟨"u1", "T2", "C2", "A2", some ⟨1, 2⟩, ["z"]⟩ : BlogPost).PublicationDate
      = (⟨"u1", "T", "C", "A", some ⟨1, 2⟩, ["x"]⟩ : BlogPost).PublicationDate ∧
    (⟨"u1", "T2", "C2", "A2", some ⟨1, 2⟩, ["z"]⟩ : BlogPost).PostId
      = (⟨"u1", "T", "C", "A", some ⟨1, 2⟩, ["x"]⟩ : BlogPost).PostId :=
  ⟨by decide, by decide,
   (MemoryStorage.publicationDate_immutable
      (NewMemoryStorage.CreatePost "u1" ⟨1, 2⟩ "T" "C" "A" ["x"]).2 "u9" ⟨5, 6⟩
      "u1" "T2" "C2" "A2" ["z"] "u1" ⟨"u1", "T", "C", "A", some ⟨1, 2⟩, ["x"]⟩
      ⟨"u1", "T2", "C2", "A2", some ⟨1, 2⟩, ["z"]⟩ (by decide)).2.2.1 (by decide)⟩

/-- C17: every post in the store has a unique id.  In every store reachable
from the empty store by any sequence of Create, Get, Update and Delete, the
post stored under key `k` has `PostId` equal to `k`, so posts stored under
different keys have different ids. -/
theorem MemoryStorage.unique_ids (s : MemoryStorage) (hs : s.Reachable) :
    (∀ (k : String) (p : BlogPost), s.posts.lookup k = some p → p.PostId = k) ∧
    (∀ (k1 k2 : String) (p1 p2 : BlogPost), k1 ≠ k2 →
      s.posts.lookup k1 = some p1 → s.posts.lookup k2 = some p2 →
      p1.PostId ≠ p2.PostId) := by
  refine ⟨hs.postId_eq_key, ?_⟩
  intro k1 k2 p1 p2 hne h1 h2 heq
  apply hne
  rw [← hs.postId_eq_key k1 p1 h1, ← hs.postId_eq_key k2 p2 h2]
  exact heq

theorem MemoryStorage.unique_ids_witness :
    ((NewMemoryStorage.CreatePost "u1" ⟨1, 2⟩ "T" "C" "A" ["x"]).2.CreatePost
        "u2" ⟨3, 4⟩ "T" "C" "A" ["x"]).2.Reachable ∧
    (⟨"u1", "T", "C", "A", some ⟨1, 2⟩, ["x"]⟩ : BlogPost).PostId
      ≠ (⟨"u2", "T", "C", "A", some ⟨3, 4⟩, ["x"]⟩ : BlogPost).PostId :=
  have hr : ((NewMemoryStorage.CreatePost "u1" ⟨1, 2⟩ "T" "C" "A" ["x"]).2.CreatePost
      "u2" ⟨3, 4⟩ "T" "C" "A" ["x"]).2.Reachable :=
    MemoryStorage.Reachable.create _ "u2" ⟨3, 4⟩ "T" "C" "A" ["x"]
      (MemoryStorage.Reachable.create _ "u1" ⟨1, 2⟩ "T" "C" "A" ["x"]
        MemoryStorage.Reachable.new)
  ⟨hr, (MemoryStorage.unique_ids _ hr).2 "u1" "u2"
    ⟨"u1", "T", "C", "A", some ⟨1, 2⟩, ["x"]⟩ ⟨"u2", "T", "C", "A", some ⟨3, 4⟩, ["x"]⟩
    (by decide) (by decide) (by decide)⟩

/-! The store left by a service operation -/

theorem BlogServer.createPost_store_cases (s : BlogServer) (uuid : String)
    (now : Timestamp) (req : CreatePostRequest) :
    (s.CreatePost uuid now req).2 = s ∨
    (req.Title ≠ "" ∧ req.Content ≠ "" ∧ req.Author ≠ "" ∧
      (s.CreatePost uuid now req).2
        = { storage :=
              (s.storage.CreatePost uuid now req.Title req.Content req.Author
                req.Tags).2 }) := by
  by_cases ht : req.Title = ""
  · simp [BlogServer.CreatePost, ht]
  by_cases hc : req.Content = ""
  · simp [BlogServer.CreatePost, ht, hc]
  by_cases ha : req.Author = ""
  · simp [BlogServer.CreatePost, ht, hc, ha]
  by_cases hd : req.PublicationDate = none
  · simp [BlogServer.CreatePost, ht, hc, ha, hd]
  · right
    rw [BlogServer.createPost_of_valid s uuid now req ht hc ha hd]
    exact ⟨ht, hc, ha, rfl⟩

theorem BlogServer.readPost_store (s : BlogServer) (req : ReadPostRequest) :
    (s.ReadPost req).2 = s := by
  by_cases hid : req.PostId = ""
  · simp [BlogServer.ReadPost, hid]
  cases hl : s.storage.posts.lookup req.PostId with
  | none => rw [BlogServer.readPost_of_lookup_none s req hid hl]
  | some post => rw [BlogServer.readPost_of_lookup_some s req post hid hl]

theorem BlogServer.updatePost_store_cases (s : BlogServer) (req : UpdatePostRequest) :
    (s.UpdatePost req).2 = s ∨
    (req.Title ≠ "" ∧ req.Content ≠ "" ∧ req.Author ≠ "" ∧
      (s.UpdatePost req).2
        = { storage :=
              (s.storage.UpdatePost req.PostId req.Title req.Content req.Author
                req.Tags).2 }) := by
  by_cases hid : req.PostId = ""
  · simp [BlogServer.UpdatePost, hid]
  by_cases ht : req.Title = ""
  · simp [BlogServer.UpdatePost, hid, ht]
  by_cases hc : req.Content = ""
  · simp [BlogServer.UpdatePost, hid, ht, hc]
  by_cases ha : req.Author = ""
  · simp [BlogServer.UpdatePost, hid, ht, hc, ha]
  cases hl : s.storage.posts.lookup req.PostId with
  | none =>
    left
    rw [BlogServer.service_update_of_lookup_none s req hid ht hc ha hl]
  | some post =>
    right
    rw [BlogServer.service_update_of_lookup_some s req post hid ht hc ha hl]
    exact ⟨ht, hc, ha, rfl⟩

theorem BlogServer.deletePost_store_cases (s : BlogServer) (req : DeletePostRequest) :
    (s.DeletePost req).2 = s ∨
    (s.DeletePost req).2 = { storage := (s.storage.DeletePost req.PostId).2 } := by
  by_cases hid : req.PostId = ""
  · simp [BlogServer.DeletePost, hid]
  cases hl : s.storage.posts.lookup req.PostId with
  | none =>
    left
    rw [BlogServer.service_delete_of_lookup_none s req hid hl]
  | some post =>
    right
    rw [BlogServer.service_delete_of_lookup_some s req post hid hl,
      MemoryStorage.deletePost_of_lookup_some hl]

/-- C18: a post exists in full or not at all.  In every store reachable from
the empty store through CreatePost, ReadPost, UpdatePost and DeletePost of the
service, with the id generator yielding non-empty ids, every stored post has a
non-empty id, title, content and author and a publication date that is set. -/
theorem BlogServer.stored_posts_full (s : BlogServer) (hs : s.ServiceReachable) :
    ∀ (k : String) (p : BlogPost), s.storage.posts.lookup k = some p →
      p.PostId ≠ "" ∧ p.Title ≠ "" ∧ p.Content ≠ "" ∧ p.Author ≠ "" ∧
      p.PublicationDate ≠ none := by
  induction hs with
  | new =>
    intro k p h
    simp [NewBlogServer, NewMemoryStorage, Finmap.lookup_empty] at h
  | create s uuid now req huuid _ ih =>
    intro k p h
    rcases BlogServer.createPost_store_cases s uuid now req with hsame | ⟨ht, hc, ha, hst⟩
    · rw [hsame] at h
      exact ih k p h
    · rw [hst] at h
      simp only [MemoryStorage.lookup_createPost] at h
      by_cases hk : k = uuid
      · rw [if_pos hk] at h
        cases h
        exact ⟨huuid, ht, hc, ha, by simp⟩
      · rw [if_neg hk] at h
        exact ih k p h
  | read s req _ ih =>
    rw [BlogServer.readPost_store]
    exact ih
  | update s req _ ih =>
    intro k p h
    rcases BlogServer.updatePost_store_cases s req with hsame | ⟨ht, hc, ha, hst⟩
    · rw [hsame] at h
      exact ih k p h
    · rw [hst] at h
      simp only [MemoryStorage.lookup_updatePost] at h
      by_cases hk : k = req.PostId
      · rw [if_pos hk] at h
        cases hl : s.storage.posts.lookup req.PostId with
        | none =>
          rw [hl] at h
          cases h
        | some post =>
          rw [hl] at h
          cases h
          obtain ⟨h1, _, _, _, h5⟩ := ih req.PostId post hl
          exact ⟨h1, ht, hc, ha, h5⟩
      · rw [if_neg hk] at h
        exact ih k p h
  | delete s req _ ih =>
    intro k p h
    rcases BlogServer.deletePost_store_cases s req with hsame | hst
    · rw [hsame] at h
      exact ih k p h
    · rw [hst] at h
      simp only [MemoryStorage.lookup_deletePost] at h
      by_cases hk : k = req.PostId
      · rw [if_pos hk] at h
        cases h
      · rw [if_neg hk] at h
        exact ih k p h

theorem BlogServer.stored_posts_full_witness :
    (((NewBlogServer NewMemoryStorage).CreatePost "u1" ⟨1, 2⟩
        ⟨"T", "C", "A", some ⟨3, 4⟩, []⟩).2.UpdatePost
        ⟨"u1", "T2", "C2", "A2", ["z"]⟩).2.ServiceReachable ∧
    (⟨"u1", "T2", "C2", "A2", some ⟨1, 2⟩, ["z"]⟩ : BlogPost).PostId ≠ "" ∧
    (⟨"u1", "T2", "C2", "A2", some ⟨1, 2⟩, ["z"]⟩ : BlogPost).Title ≠ "" ∧
    (⟨"u1", "T2", "C2", "A2", some ⟨1, 2⟩, ["z"]⟩ : BlogPost).Content ≠ "" ∧
    (⟨"u1", "T2", "C2", "A2", some ⟨1, 2⟩, ["z"]⟩ : BlogPost).Author ≠ "" ∧
    (⟨"u1", "T2", "C2", "A2", some ⟨1, 2⟩, ["z"]⟩ : BlogPost).PublicationDate ≠ none :=
  have hr : (((NewBlogServer NewMemoryStorage).CreatePost "u1" ⟨1, 2⟩
      ⟨"T", "C", "A", some ⟨3, 4⟩, []⟩).2.UpdatePost
      ⟨"u1", "T2", "C2", "A2", ["z"]⟩).2.ServiceReachable :=
    BlogServer.ServiceReachable.update _ ⟨"u1", "T2", "C2", "A2", ["z"]⟩
      (BlogServer.ServiceReachable.create _ "u1" ⟨1, 2⟩ ⟨"T", "C", "A", some ⟨3, 4⟩, []⟩
        (by decide) BlogServer.ServiceReachable.new)
  ⟨hr, BlogServer.stored_posts_full _ hr "u1" ⟨"u1", "T2", "C2", "A2", some ⟨1, 2⟩, ["z"]⟩
    (by decide)⟩

/-! Sizes -/

theorem MemoryStorage.keys_insert (m : Finmap (fun _ : String => BlogPost)) (a : String)
    (b : BlogPost) : (m.insert a b).keys = insert a m.keys := by
  ext x
  simp [Finmap.mem_keys, Finmap.mem_insert]

/-- C20: Create with a generated id that is not yet a key of the store loses
no data.  Every post held before the call is returned unchanged by Get on the
resulting store, Get of the generated id returns the new post, and the number
of stored posts grows by exactly one. -/
theorem MemoryStorage.create_keeps_existing (s : MemoryStorage) (uuid : String)
    (now : Timestamp) (title content author : String) (tags : List String)
    (hfresh : uuid ∉ s.posts) :
    (∀ (k : String) (p : BlogPost), s.posts.lookup k = some p →
      ((s.CreatePost uuid now title content author tags).2.GetPost k).1
        = (some p, none)) ∧
    ((s.CreatePost uuid now title content author tags).2.GetPost uuid).1
      = (some { PostId := uuid, Title := title, Content := content, Author := author,
                PublicationDate := some now, Tags := tags }, none) ∧
    (s.CreatePost uuid now title content author tags).2.size = s.size + 1 := by
  refine ⟨?_, ?_, ?_⟩
  · intro k p hp
    have hk : k ≠ uuid := by
      intro h
      subst h
      exact hfresh (Finmap.mem_of_lookup_eq_some hp)
    have hl : (s.CreatePost uuid now title content author tags).2.posts.lookup k
        = some p := by
      rw [MemoryStorage.lookup_createPost, if_neg hk, hp]
    rw [MemoryStorage.getPost_of_lookup_some hl]
  · have hl := MemoryStorage.lookup_createPost s uuid now title content author tags uuid
    rw [if_pos rfl] at hl
    rw [MemoryStorage.getPost_of_lookup_some hl]
  · have hnk : uuid ∉ s.posts.keys := fun h => hfresh (Finmap.mem_keys.mp h)
    simp only [MemoryStorage.size, MemoryStorage.CreatePost, MemoryStorage.keys_insert]
    exact Finset.card_insert_of_not_mem hnk

theorem MemoryStorage.create_keeps_existing_witness :
    "u2" ∉ (NewMemoryStorage.CreatePost "u1" ⟨1, 2⟩ "T" "C" "A" ["x"]).2.posts ∧
    (((NewMemoryStorage.CreatePost "u1" ⟨1, 2⟩ "T" "C" "A" ["x"]).2.CreatePost
        "u2" ⟨3, 4⟩ "T2" "C2" "A2" []).2.GetPost "u1").1
      = (some ⟨"u1", "T", "C", "A", some ⟨1, 2⟩, ["x"]⟩, none) ∧
    ((NewMemoryStorage.CreatePost "u1" ⟨1, 2⟩ "T" "C" "A" ["x"]).2.CreatePost
        "u2" ⟨3, 4⟩ "T2" "C2" "A2" []).2.size
      = (NewMemoryStorage.CreatePost "u1" ⟨1, 2⟩ "T" "C" "A" ["x"]).2.size + 1 :=
  have h := MemoryStorage.create_keeps_existing
    (NewMemoryStorage.CreatePost "u1" ⟨1, 2⟩ "T" "C" "A" ["x"]).2 "u2" ⟨3, 4⟩
    "T2" "C2" "A2" [] (by decide)
  ⟨by decide, h.1 "u1" ⟨"u1", "T", "C", "A", some ⟨1, 2⟩, ["x"]⟩ (by decide), h.2.2⟩

/-! Frame properties of the store -/

theorem MemoryStorage.getPost_congr {s1 s2 : MemoryStorage} {k : String}
    (h : s1.posts.lookup k = s2.posts.lookup k) :
    (s1.GetPost k).1 = (s2.GetPost k).1 := by
  cases hl : s2.posts.lookup k with
  | none =>
    rw [MemoryStorage.getPost_of_lookup_none hl,
      MemoryStorage.getPost_of_lookup_none (h.trans hl)]
  | some post =>
    rw [MemoryStorage.getPost_of_lookup_some hl,
      MemoryStorage.getPost_of_lookup_some (h.trans hl)]

/-- C21: Update and Delete of `postID` touch only the record at `postID`.  For
every store and every key `k` different from `postID`, Get of `k` returns the
same post and the same error after the operation as before it; an Update that
succeeds leaves the set of stored ids unchanged; a Delete that succeeds removes
exactly `postID` from the set of stored ids, and the number of stored posts
goes down by exactly one. -/
theorem MemoryStorage.update_delete_frame (s : MemoryStorage)
    (postID title content author : String) (tags : List String) (k : String)
    (hk : k ≠ postID) :
    ((s.UpdatePost postID title content author tags).2.GetPost k).1 = (s.GetPost k).1 ∧
    ((s.DeletePost postID).2.GetPost k).1 = (s.GetPost k).1 ∧
    ((s.UpdatePost postID title content author tags).1.2 = none →
      (s.UpdatePost postID title content author tags).2.posts.keys = s.posts.keys) ∧
    ((s.DeletePost postID).1 = none →
      postID ∈ s.posts.keys ∧
      (s.DeletePost postID).2.posts.keys = s.posts.keys.erase postID ∧
      (s.DeletePost postID).2.size + 1 = s.size) := by
  refine ⟨?_, ?_, ?_, ?_⟩
  · apply MemoryStorage.getPost_congr
    rw [MemoryStorage.lookup_updatePost, if_neg hk]
  · apply MemoryStorage.getPost_congr
    rw [MemoryStorage.lookup_deletePost, if_neg hk]
  · intro hok
    cases hl : s.posts.lookup postID with
    | none =>
      rw [MemoryStorage.updatePost_of_lookup_none _ _ _ _ hl]
    | some post =>
      have hmem : postID ∈ s.posts.keys :=
        Finmap.mem_keys.mpr (Finmap.mem_of_lookup_eq_some hl)
      rw [MemoryStorage.updatePost_of_lookup_some _ _ _ _ hl]
      simp only [MemoryStorage.keys_insert]
      exact Finset.insert_eq_of_mem hmem
  · intro hok
    cases hl : s.posts.lookup postID with
    | none =>
      rw [MemoryStorage.deletePost_of_lookup_none hl] at hok
      cases hok
    | some post =>
      have hmem : postID ∈ s.posts.keys :=
        Finmap.mem_keys.mpr (Finmap.mem_of_lookup_eq_some hl)
      rw [MemoryStorage.deletePost_of_lookup_some hl]
      refine ⟨hmem, Finmap.keys_erase postID s.posts, ?_⟩
      simp only [MemoryStorage.size, Finmap.keys_erase]
      exact Finset.card_erase_add_one hmem

theorem MemoryStorage.update_delete_frame_witness :
    "u1" ≠ "u2" ∧
    ((((NewMemoryStorage.CreatePost "u1" ⟨1, 2⟩ "T" "C" "A" ["x"]).2.CreatePost
        "u2" ⟨3, 4⟩ "T" "C" "A" []).2.UpdatePost "u2" "T2" "C2" "A2" ["z"]).2.GetPost
        "u1").1
      = (((NewMemoryStorage.CreatePost "u1" ⟨1, 2⟩ "T" "C" "A" ["x"]).2.CreatePost
          "u2" ⟨3, 4⟩ "T" "C" "A" []).2.GetPost "u1").1 ∧
    (((NewMemoryStorage.CreatePost "u1" ⟨1, 2⟩ "T" "C" "A" ["x"]).2.CreatePost
        "u2" ⟨3, 4⟩ "T" "C" "A" []).2.DeletePost "u2").2.size + 1
      = ((NewMemoryStorage.CreatePost "u1" ⟨1, 2⟩ "T" "C" "A" ["x"]).2.CreatePost
          "u2" ⟨3, 4⟩ "T" "C" "A" []).2.size :=
  have h := MemoryStorage.update_delete_frame
    ((NewMemoryStorage.CreatePost "u1" ⟨1, 2⟩ "T" "C" "A" ["x"]).2.CreatePost
      "u2" ⟨3, 4⟩ "T" "C" "A" []).2 "u2" "T2" "C2" "A2" ["z"] "u1" (by decide)
  ⟨by decide, h.1, (h.2.2.2 (by decide)).2.2⟩

/-- C22: the store operations are atomic on failure and Get is read-only.  For
every store and id, Get leaves the store equal to the store before the call
whether it succeeds or fails, and so does every Update or Delete that returns
an error (the only error being NotFound). -/
theorem MemoryStorage.failure_keeps_store (s : MemoryStorage)
    (postID title content author : String) (tags : List String) :
    (s.GetPost postID).2 = s ∧
    ((s.UpdatePost postID title content author tags).1.2 ≠ none →
      (s.UpdatePost postID title content author tags).1.2
          = some ("post with ID " ++ postID ++ " not found") ∧
        (s.UpdatePost postID title content author tags).2 = s) ∧
    ((s.DeletePost postID).1 ≠ none →
      (s.DeletePost postID).1 = some ("post with ID " ++ postID ++ " not found") ∧
        (s.DeletePost postID).2 = s) := by
  refine ⟨MemoryStorage.getPost_store s postID, ?_, ?_⟩
  · intro herr
    cases hl : s.posts.lookup postID with
    | none =>
      rw [MemoryStorage.updatePost_of_lookup_none _ _ _ _ hl]
      exact ⟨rfl, rfl⟩
    | some post =>
      rw [MemoryStorage.updatePost_of_lookup_some _ _ _ _ hl] at herr
      exact absurd rfl herr
  · intro herr
    cases hl : s.posts.lookup postID with
    | none =>
      rw [MemoryStorage.deletePost_of_lookup_none hl]
      exact ⟨rfl, rfl⟩
    | some post =>
      rw [MemoryStorage.deletePost_of_lookup_some hl] at herr
      exact absurd rfl herr

theorem MemoryStorage.failure_keeps_store_witness :
    ((NewMemoryStorage.CreatePost "u1" ⟨1, 2⟩ "T" "C" "A" ["x"]).2.UpdatePost
        "u2" "T2" "C2" "A2" ["z"]).2
      = (NewMemoryStorage.CreatePost "u1" ⟨1, 2⟩ "T" "C" "A" ["x"]).2 ∧
    ((NewMemoryStorage.CreatePost "u1" ⟨1, 2⟩ "T" "C" "A" ["x"]).2.DeletePost "u2").2
      = (NewMemoryStorage.CreatePost "u1" ⟨1, 2⟩ "T" "C" "A" ["x"]).2 :=
  have h := MemoryStorage.failure_keeps_store
    (NewMemoryStorage.CreatePost "u1" ⟨1, 2⟩ "T" "C" "A" ["x"]).2
    "u2" "T2" "C2" "A2" ["z"]
  ⟨(h.2.1 (by decide)).2, (h.2.2 (by decide)).2⟩

/-- C23: Create performs no collision check.  If the generated id is already a
key of the store, holding a post `old`, Create still returns the new post and
no error; afterwards the store holds the new post under that id, the same
store as if `old` had been removed before the call (nothing of `old` is kept),
and the number of stored posts is unchanged. -/
theorem MemoryStorage.create_collision (s : MemoryStorage) (uuid : String)
    (now : Timestamp) (title content author : String) (tags : List String)
    (old : BlogPost) (hold : s.posts.lookup uuid = some old) :
    (s.CreatePost uuid now title content author tags).1
      = (some { PostId := uuid, Title := title, Content := content, Author := author,
                PublicationDate := some now, Tags := tags }, none) ∧
    ((s.CreatePost uuid now title content author tags).2.GetPost uuid).1
      = (some { PostId := uuid, Title := title, Content := content, Author := author,
                PublicationDate := some now, Tags := tags }, none) ∧
    (s.CreatePost uuid now title content author tags).2
      = ((MemoryStorage.mk (s.posts.erase uuid)).CreatePost uuid now title content
          author tags).2 ∧
    (s.CreatePost uuid now title content author tags).2.size = s.size := by
  refine ⟨rfl, ?_, ?_, ?_⟩
  · have hl := MemoryStorage.lookup_createPost s uuid now title content author tags uuid
    rw [if_pos rfl] at hl
    rw [MemoryStorage.getPost_of_lookup_some hl]
  · have hposts : (s.CreatePost uuid now title content author tags).2.posts
        = ((MemoryStorage.mk (s.posts.erase uuid)).CreatePost uuid now title content
            author tags).2.posts := by
      apply Finmap.ext_lookup
      intro k
      rw [MemoryStorage.lookup_createPost, MemoryStorage.lookup_createPost]
      by_cases hk : k = uuid
      · rw [if_pos hk, if_pos hk]
      · rw [if_neg hk, if_neg hk]
        exact (Finmap.lookup_erase_ne hk).symm
    cases h1 : (s.CreatePost uuid now title content author tags).2
    cases h2 : ((MemoryStorage.mk (s.posts.erase uuid)).CreatePost uuid now title content
      author tags).2
    rw [h1, h2] at hposts
    simp only at hposts
    rw [hposts]
  · have hmem : uuid ∈ s.posts.keys :=
      Finmap.mem_keys.mpr (Finmap.mem_of_lookup_eq_some hold)
    simp only [MemoryStorage.size, MemoryStorage.CreatePost, MemoryStorage.keys_insert]
    rw [Finset.insert_eq_of_mem hmem]

theorem MemoryStorage.create_collision_witness :
    (NewMemoryStorage.CreatePost "u1" ⟨1, 2⟩ "T" "C" "A" ["x"]).2.posts.lookup "u1"
      = some ⟨"u1", "T", "C", "A", some ⟨1, 2⟩, ["x"]⟩ ∧
    (((NewMemoryStorage.CreatePost "u1" ⟨1, 2⟩ "T" "C" "A" ["x"]).2.CreatePost
        "u1" ⟨3, 4⟩ "T2" "C2" "A2" []).2.GetPost "u1").1
      = (some ⟨"u1", "T2", "C2", "A2", some ⟨3, 4⟩, []⟩, none) ∧
    ((NewMemoryStorage.CreatePost "u1" ⟨1, 2⟩ "T" "C" "A" ["x"]).2.CreatePost
        "u1" ⟨3, 4⟩ "T2" "C2" "A2" []).2.size
      = (NewMemoryStorage.CreatePost "u1" ⟨1, 2⟩ "T" "C" "A" ["x"]).2.size :=
  have h := MemoryStorage.create_collision
    (NewMemoryStorage.CreatePost "u1" ⟨1, 2⟩ "T" "C" "A" ["x"]).2 "u1" ⟨3, 4⟩
    "T2" "C2" "A2" [] ⟨"u1", "T", "C", "A", some ⟨1, 2⟩, ["x"]⟩ (by decide)
  ⟨by decide, h.2.1, h.2.2.2⟩

/-- C24: Update followed by Get round-trips.  For every store containing
`postID` and all arguments, Update succeeds and returns a post `P`, and Get of
`postID` on the store Update left succeeds and returns exactly `P`. -/
theorem MemoryStorage.update_get_roundtrip (s : MemoryStorage)
    (postID title content author : String) (tags : List String)
    (hmem : postID ∈ s.posts) :
    ∃ P : BlogPost,
      (s.UpdatePost postID title content author tags).1 = (some P, none) ∧
      ((s.UpdatePost postID title content author tags).2.GetPost postID).1
        = (some P, none) := by
  obtain ⟨post, hl⟩ := Finmap.mem_iff.mp hmem
  refine ⟨{ post with Title := title, Content := content, Author := author,
                      Tags := tags }, ?_, ?_⟩
  · rw [MemoryStorage.updatePost_of_lookup_some _ _ _ _ hl]
  · have hl2 := MemoryStorage.lookup_updatePost s postID title content author tags postID
    rw [if_pos rfl, hl] at hl2
    rw [MemoryStorage.getPost_of_lookup_some hl2]

theorem MemoryStorage.update_get_roundtrip_witness :
    "u1" ∈ (NewMemoryStorage.CreatePost "u1" ⟨1, 2⟩ "T" "C" "A" ["x"]).2.posts ∧
    ∃ P : BlogPost,
      ((NewMemoryStorage.CreatePost "u1" ⟨1, 2⟩ "T" "C" "A" ["x"]).2.UpdatePost
          "u1" "T2" "C2" "A2" ["z"]).1 = (some P, none) ∧
      (((NewMemoryStorage.CreatePost "u1" ⟨1, 2⟩ "T" "C" "A" ["x"]).2.UpdatePost
          "u1" "T2" "C2" "A2" ["z"]).2.GetPost "u1").1 = (some P, none) :=
  ⟨by decide,
   MemoryStorage.update_get_roundtrip
     (NewMemoryStorage.CreatePost "u1" ⟨1, 2⟩ "T" "C" "A" ["x"]).2
     "u1" "T2" "C2" "A2" ["z"] (by decide)⟩

